import Mathlib

/-
  Verification development for the DevMind development-context oracle.

  The repository ships the Next.js dashboard (src/app/page.tsx, two revisions
  concatenated; the second, fetch-based revision subsumes the first) together
  with backend documentation.  The dashboard's query handler `handleQuery`,
  its state fields, and the declared backend response shape `QueryApiResponse`
  are embedded below directly from the source.  The backend retrieval core
  (Relevance Scorer, Correlator, Ranker/Selector, Query Orchestrator) is not
  present in the repository sources, only documented; those components are
  modelled from the specification, each marked as such in its doc comment.
-/

namespace DevMind

/- ## JavaScript string helpers
   `query.trim()` removes whitespace from both ends; `!query.trim()` is true
   exactly when the trimmed string is empty. -/

/-- Character list of a string with leading and trailing whitespace removed,
mirroring JavaScript `String.prototype.trim`. -/
def trimmedChars (s : String) : List Char :=
  ((s.toList.dropWhile Char.isWhitespace).reverse.dropWhile Char.isWhitespace).reverse

/-- True exactly when `!s.trim()` is true in JavaScript: the string is empty
or whitespace-only. -/
def isBlank (s : String) : Bool :=
  (trimmedChars s).isEmpty

/- ## Backend response shape declared by the frontend
   (src/app/page.tsx, `interface ContextMatch` and `interface QueryApiResponse`). -/

/-- One context match of the backend response (interface `ContextMatch`,
src/app/page.tsx).  Numeric fields are modelled as rationals, timestamps as
their wire strings. -/
structure ContextMatch where
  entry_id : String
  score : ℚ
  source : String
  entry_type : String
  title : Option String
  content : String
  author : Option String
  timestamp : String
  url : Option String
deriving DecidableEq

/-- The backend response as parsed by the frontend (interface
`QueryApiResponse`, src/app/page.tsx).  The interface declares `sources_used`
as a required string array, but the handler guards against its absence at
runtime with `data.sources_used || []`, so the parsed value is modelled as an
`Option`. -/
structure QueryApiResponse where
  query_id : String
  query : String
  answer : String
  sources_used : Option (List String)
  context_matches : List ContextMatch
  confidence_score : ℚ
  execution_time : ℚ
  timestamp : String
deriving DecidableEq

/-- The field names of `interface QueryApiResponse` in declaration order
(src/app/page.tsx lines 342-351). -/
def queryApiResponseFields : List String :=
  ["query_id", "query", "answer", "sources_used", "context_matches",
   "confidence_score", "execution_time", "timestamp"]

/- ## Dashboard component state and the query handler
   (src/app/page.tsx, `DevMindDashboard` / `handleQuery`, fetch-based
   revision). -/

/-- The React state of `DevMindDashboard`: `query`, `isQuerying`,
`focusedInput`, `activeTools`, `apiResponse`, `error`. -/
structure DashboardState where
  query : String
  isQuerying : Bool
  focusedInput : Bool
  activeTools : List String
  apiResponse : Option QueryApiResponse
  error : Option String
deriving DecidableEq

/-- The single POST request `handleQuery` issues to the backend, with the JSON
body fields it sends. -/
structure BackendRequest where
  url : String
  method : String
  body_query : String
  body_context_limit : Nat
  body_include_sources : List String
deriving DecidableEq

/-- `const potentialTools = ["github", "slack", "jira", "confluence"]`. -/
def potentialTools : List String :=
  ["github", "slack", "jira", "confluence"]

/-- The default backend URL (`process.env.NEXT_PUBLIC_BACKEND_URL ||
"http://localhost:8000"` with the variable unset). -/
def backendUrl : String :=
  "http://localhost:8000"

/-- Outcome of the fetch to the backend, as observed by `handleQuery`:
an ok response with parsed data; a non-ok response with its status, its
body parsed as JSON when possible (the `detail` and `message` fields) and
its body text; or a thrown fetch error with its message. -/
inductive BackendOutcome where
  | ok (data : QueryApiResponse)
  | httpError (status : Nat) (jsonBody : Option (Option String × Option String))
      (textBody : String)
  | thrown (message : String)

/-- JavaScript `a || b` on an optional string `a`: the string when present and
non-empty (truthy), otherwise `b`. -/
def orFallback (a : Option String) (b : String) : String :=
  match a with
  | some s => if s = "" then b else s
  | none => b

/-- The error message `handleQuery` builds for a non-ok response:
`errorDetail` starts as `"HTTP error! status: " + status`, is replaced by
`errorData.detail || errorData.message || errorDetail` when the body parses as
JSON, and by `textError || errorDetail` otherwise. -/
def httpErrorMessage (status : Nat)
    (jsonBody : Option (Option String × Option String)) (textBody : String) :
    String :=
  let base := "HTTP error! status: " ++ toString status
  match jsonBody with
  | some p => orFallback p.1 (orFallback p.2 base)
  | none => if textBody = "" then base else textBody

/-- The message of the error thrown inside the `try` block, when one is
thrown: the built `errorDetail` for a non-ok response, the fetch error's own
message otherwise. -/
def thrownMessage : BackendOutcome → Option String
  | .ok _ => none
  | .httpError status jsonBody textBody => some (httpErrorMessage status jsonBody textBody)
  | .thrown message => some message

/-- Whether the fetch outcome is an ok response (`response.ok` with parsed
data); a non-ok status and a thrown fetch error are both failures. -/
def isOkOutcome : BackendOutcome → Bool
  | .ok _ => true
  | .httpError _ _ _ => false
  | .thrown _ => false

/-- Result of one `handleQuery` invocation: the settled component state (after
the `finally` block has cleared `isQuerying`) and the list of backend requests
issued. -/
structure HandleResult where
  state : DashboardState
  requests : List BackendRequest

/-- Embedding of `handleQuery` (src/app/page.tsx, fetch-based revision).
`if (!query.trim()) return;` — a blank query returns at once, issuing no
request and touching no state.  Otherwise the handler sets `isQuerying`,
clears `apiResponse` and `error`, shows all `potentialTools`, and POSTs the
query.  On an ok response it stores the data and sets `activeTools` to
`data.sources_used || []`; on a non-ok response or a thrown fetch error it
sets `error` to `err.message || "Failed to fetch response from DevMind."` and
clears `activeTools`.  The `finally` block clears `isQuerying`. -/
def handleQuery (s : DashboardState) (outcome : BackendOutcome) : HandleResult :=
  if isBlank s.query then { state := s, requests := [] }
  else
    let s1 : DashboardState :=
      { s with isQuerying := true, apiResponse := none, error := none,
               activeTools := potentialTools }
    let req : BackendRequest :=
      { url := backendUrl ++ "/api/v1/query", method := "POST",
        body_query := s.query, body_context_limit := 10,
        body_include_sources := potentialTools }
    match outcome with
    | .ok data =>
        { state := { s1 with apiResponse := some data,
                             activeTools := data.sources_used.getD [],
                             isQuerying := false },
          requests := [req] }
    | o =>
        let msg := (thrownMessage o).getD ""
        let errMsg := if msg = "" then "Failed to fetch response from DevMind." else msg
        { state := { s1 with error := some errMsg, activeTools := [],
                             isQuerying := false },
          requests := [req] }

/-- The submit button's `disabled` condition:
`!query.trim() || isQuerying` (src/app/page.tsx line 491). -/
def submitDisabled (s : DashboardState) : Bool :=
  isBlank s.query || s.isQuerying

/- ## Backend retrieval core, modelled from the spec
   The backend engine (Scorer, Correlator, Ranker/Selector, Orchestrator) is
   documented in the repository but its source is not shipped; the following
   definitions are modelled from the specification. -/

/-- Modelled from the spec: `clamp(value, lo, hi)` used by the Relevance
Scorer to bound the weighted sum. -/
def clamp (x lo hi : ℚ) : ℚ :=
  max lo (min hi x)

/-- Modelled from the spec: the Scorer's three signal weights
`(w1, w2, w3)`. -/
structure ScorerWeights where
  w1 : ℚ
  w2 : ℚ
  w3 : ℚ

/-- Modelled from the spec: the documented default weights
`(0.5, 0.2, 0.3)`. -/
def defaultWeights : ScorerWeights :=
  { w1 := 1/2, w2 := 1/5, w3 := 3/10 }

/-- Modelled from the spec: lexical overlap — the fraction of query terms
found in the entry's tags or content tokens; `0` when there are no query
terms. -/
def lexicalOverlap (queryTerms tags contentTokens : List String) : ℚ :=
  if queryTerms.length = 0 then 0
  else
    ((queryTerms.filter (fun t => tags.contains t || contentTokens.contains t)).length : ℚ)
      / (queryTerms.length : ℚ)

/-- Modelled from the spec: the Scorer's combination step — the weighted sum
of the three normalized signals, clamped to `[0,1]`. -/
def relevanceScore (w : ScorerWeights) (lexical recency sourcePriority : ℚ) : ℚ :=
  clamp (w.w1 * lexical + w.w2 * recency + w.w3 * sourcePriority) 0 1

/-- Modelled from the spec: `score(entry, query_terms)` for an entry given by
its tags, content tokens, recency signal and source-priority signal (the
exponential recency decay of real timestamps is absorbed into the
`recency` input, already normalized to `[0,1]`). -/
def score (w : ScorerWeights) (queryTerms tags contentTokens : List String)
    (recency sourcePriority : ℚ) : ℚ :=
  relevanceScore w (lexicalOverlap queryTerms tags contentTokens) recency sourcePriority

/-- Modelled from the spec: a correlation edge between two entry ids with a
strength in `[0,1]`. -/
structure CorrEdge where
  src : Nat
  dst : Nat
  strength : ℚ
deriving DecidableEq

/-- Modelled from the spec: the default cluster threshold `0.5` — only edges
at least this strong merge clusters. -/
def clusterThreshold : ℚ :=
  mkRat 1 2

/-- Modelled from the spec: one union step of the Correlator's union-find —
relabel the class of `a` to the class of `b`. -/
def mergeRoot (m : Nat → Nat) (a b : Nat) : Nat → Nat :=
  fun x => if m x = m a then m b else m x

/-- Modelled from the spec: the component-representative map obtained by
folding every qualifying edge through `mergeRoot`, starting from the identity
(each entry its own class). -/
def rootOf (edges : List (Nat × Nat)) : Nat → Nat :=
  edges.foldl (fun m e => mergeRoot m e.1 e.2) id

/-- Modelled from the spec: the edges that qualify for clustering — those of
strength at least `clusterThreshold`. -/
def qualifyingPairs (edges : List CorrEdge) : List (Nat × Nat) :=
  (edges.filter (fun e => decide (clusterThreshold ≤ e.strength))).map
    (fun e => (e.src, e.dst))

/-- Modelled from the spec: the component representative of an entry id under
the qualifying correlation edges. -/
def entryRoot (edges : List CorrEdge) : Nat → Nat :=
  rootOf (qualifyingPairs edges)

/-- Modelled from the spec: the Correlator's clustering — entries of the
deduplicated set sharing a component representative under the qualifying
edges (strength at least `clusterThreshold`) form one cluster; entries with
no qualifying edge stay in singleton clusters. -/
def clustersOf (ids : List Nat) (edges : List CorrEdge) : List (List Nat) :=
  ((ids.map (entryRoot edges)).dedup).map
    (fun v => ids.filter (fun x => entryRoot edges x == v))

/-- Modelled from the spec: a scored entry as seen by the Ranker — its id,
relevance score and timestamp. -/
structure ScoredEntry where
  id : Nat
  relevance : ℚ
  timestamp : ℤ
deriving DecidableEq

/-- Modelled from the spec: a cluster with its representative entry and its
member ids. -/
structure Cluster where
  representative : ScoredEntry
  members : List Nat
deriving DecidableEq

/-- Modelled from the spec: the Ranker's cluster order — representative
relevance descending, then cluster size descending, then representative
timestamp descending. -/
def clusterBefore (a b : Cluster) : Prop :=
  b.representative.relevance < a.representative.relevance ∨
    (a.representative.relevance = b.representative.relevance ∧
      (b.members.length < a.members.length ∨
        (a.members.length = b.members.length ∧
          b.representative.timestamp ≤ a.representative.timestamp)))

instance : DecidableRel clusterBefore :=
  fun a b => by unfold clusterBefore; infer_instance

instance : IsTotal Cluster clusterBefore := by
  constructor
  intro a b
  unfold clusterBefore
  rcases lt_trichotomy a.representative.relevance b.representative.relevance with h | h | h
  · exact Or.inr (Or.inl h)
  · rcases lt_trichotomy a.members.length b.members.length with h2 | h2 | h2
    · exact Or.inr (Or.inr ⟨h.symm, Or.inl h2⟩)
    · rcases le_total a.representative.timestamp b.representative.timestamp with h3 | h3
      · exact Or.inr (Or.inr ⟨h.symm, Or.inr ⟨h2.symm, h3⟩⟩)
      · exact Or.inl (Or.inr ⟨h, Or.inr ⟨h2, h3⟩⟩)
    · exact Or.inl (Or.inr ⟨h, Or.inl h2⟩)
  · exact Or.inl (Or.inl h)

instance : IsTrans Cluster clusterBefore := by
  constructor
  intro a b c hab hbc
  unfold clusterBefore at hab hbc ⊢
  rcases hab with h1 | ⟨e1, h1⟩
  · rcases hbc with h2 | ⟨e2, h2⟩
    · exact Or.inl (by linarith)
    · exact Or.inl (by linarith)
  · rcases hbc with h2 | ⟨e2, h2⟩
    · exact Or.inl (by linarith)
    · refine Or.inr ⟨e1.trans e2, ?_⟩
      rcases h1 with l1 | ⟨el1, t1⟩
      · rcases h2 with l2 | ⟨el2, t2⟩
        · exact Or.inl (by omega)
        · exact Or.inl (by omega)
      · rcases h2 with l2 | ⟨el2, t2⟩
        · exact Or.inl (by omega)
        · exact Or.inr ⟨el1.trans el2, le_trans t2 t1⟩

/-- Modelled from the spec: the default result budget, `10`. -/
def defaultLimit : Nat :=
  10

/-- Modelled from the spec: `select(clusters, limit)` — sort the clusters by
`clusterBefore`, emit each cluster's representative in that order, truncate
to `limit`. -/
def select (clusters : List Cluster) (limit : Nat) : List ScoredEntry :=
  ((List.insertionSort clusterBefore clusters).map Cluster.representative).take limit

/-- Modelled from the spec: one candidate-fetch request the Orchestrator
sends to a source collaborator, governed by a per-source timeout. -/
structure SourceFetchRequest where
  source : String
  query_text : String
  timeout : ℚ
deriving DecidableEq

/-- Modelled from the spec: the default per-source timeout, 5 seconds. -/
def defaultSourceTimeout : ℚ :=
  5

/-- Modelled from the spec: the Orchestrator's fan-out — one fetch request
per requested source, each with the per-source timeout. -/
def fanOutRequests (queryText : String) (sources : List String) (t : ℚ) :
    List SourceFetchRequest :=
  sources.map (fun s => { source := s, query_text := queryText, timeout := t })

/-- Modelled from the spec: the final result object `QueryResult` with its
`query`, `ranked_entries`, `clusters`, `sources_used`, `confidence_score` and
`execution_time` fields. -/
structure QueryResult where
  query : String
  ranked_entries : List ScoredEntry
  clusters : List Cluster
  sources_used : List String
  confidence_score : ℚ
  execution_time : ℚ

/-- Modelled from the spec: mean relevance of the selected representatives,
`0` for an empty selection. -/
def meanRelevance (l : List ScoredEntry) : ℚ :=
  if l.length = 0 then 0 else (l.map ScoredEntry.relevance).sum / (l.length : ℚ)

/-- Modelled from the spec: the representative of a cluster — its
highest-relevance member among the candidates (a placeholder entry for an
empty member list, which clustering never produces). -/
def reprOf (candidates : List ScoredEntry) (ms : List Nat) : ScoredEntry :=
  match candidates.filter (fun c => ms.contains c.id) with
  | [] => { id := 0, relevance := 0, timestamp := 0 }
  | c :: cs => cs.foldl (fun best x => if best.relevance < x.relevance then x else best) c

/-- One run of the Orchestrator: the fetch requests it issued and the
QueryResult it assembled. -/
structure OrchestratorRun where
  requests : List SourceFetchRequest
  result : QueryResult

/-- Modelled from the spec: `run_query(query_text, sources, limit)` — the
Query Orchestrator.  The per-source fetch outcomes are an input (`fetch s =
none` meaning that source errored or timed out); the correlation edges over
the merged candidates are likewise an input of the model.  The Orchestrator
fans out one request per requested source, merges the candidates of the
sources that responded, clusters them, selects the ranked representatives,
and scales the mean relevance by `responded / requested` for the confidence
score.  It always returns a complete QueryResult; `sources_used` holds
exactly the sources that responded. -/
def run_query (queryText : String) (sources : List String) (limit : Nat)
    (fetch : String → Option (List ScoredEntry)) (edges : List CorrEdge)
    (elapsed : ℚ) : OrchestratorRun :=
  let responded := sources.filter (fun s => (fetch s).isSome)
  let candidates := sources.foldr (fun s acc => (fetch s).getD [] ++ acc) []
  let memberLists := clustersOf ((candidates.map ScoredEntry.id).dedup) edges
  let clusters := memberLists.map
    (fun ms => { representative := reprOf candidates ms, members := ms })
  let ranked := select clusters limit
  let conf :=
    if sources.length = 0 then 0
    else meanRelevance ranked * (responded.length : ℚ) / (sources.length : ℚ)
  { requests := fanOutRequests queryText sources defaultSourceTimeout,
    result := { query := queryText, ranked_entries := ranked, clusters := clusters,
                sources_used := responded, confidence_score := conf,
                execution_time := elapsed } }

/- ## Claims -/

/-- C3: for every query, `run_query` fans out one candidate-fetch request to
each requested source collaborator, each governed by the per-source timeout
(default 5 seconds): every requested source receives its own fetch request,
and there is exactly one request per requested source. -/
theorem run_query_fans_out (queryText : String) (sources : List String)
    (limit : Nat) (fetch : String → Option (List ScoredEntry))
    (edges : List CorrEdge) (elapsed : ℚ) (src : String) (h : src ∈ sources) :
    ({ source := src, query_text := queryText, timeout := defaultSourceTimeout } :
        SourceFetchRequest)
      ∈ (run_query queryText sources limit fetch edges elapsed).requests ∧
    (run_query queryText sources limit fetch edges elapsed).requests.length
      = sources.length ∧
    defaultSourceTimeout = 5 := by
  refine ⟨?_, ?_, rfl⟩
  · simp only [run_query, fanOutRequests, List.mem_map]
    exact ⟨src, h, rfl⟩
  · simp [run_query, fanOutRequests]

theorem run_query_fans_out_witness :
    ("github" : String) ∈ ["github", "slack"] ∧
    ({ source := "github", query_text := "q", timeout := defaultSourceTimeout } :
        SourceFetchRequest)
      ∈ (run_query "q" ["github", "slack"] 3
          (fun _ => (none : Option (List ScoredEntry))) [] 0).requests :=
  ⟨by decide,
    (run_query_fans_out "q" ["github", "slack"] 3
      (fun _ => (none : Option (List ScoredEntry))) [] 0 "github" (by decide)).1⟩

/-- C4: the failure of any single source never fails the whole query —
`run_query` always assembles a complete QueryResult, and its `sources_used`
holds exactly the requested sources whose fetch responded: a failed or
timed-out source (fetch outcome `none`) is excluded. -/
theorem run_query_absorbs_source_failure (queryText : String)
    (sources : List String) (limit : Nat)
    (fetch : String → Option (List ScoredEntry)) (edges : List CorrEdge)
    (elapsed : ℚ) :
    (∀ s, s ∈ (run_query queryText sources limit fetch edges elapsed).result.sources_used
        ↔ s ∈ sources ∧ (fetch s).isSome = true) ∧
    (run_query queryText sources limit fetch edges elapsed).result.query = queryText ∧
    (run_query queryText sources limit fetch edges elapsed).result.execution_time
      = elapsed := by
  refine ⟨fun s => ?_, rfl, rfl⟩
  simp [run_query, List.mem_filter]

theorem run_query_absorbs_source_failure_witness :
    ("slack" : String) ∈ (run_query "q" ["github", "slack"] 10
        (fun s => if s = "github" then some [] else none) [] 0).result.sources_used
      ↔ (("slack" : String) ∈ ["github", "slack"] ∧
        ((fun s => if s = "github" then some ([] : List ScoredEntry) else none)
            "slack").isSome = true) :=
  (run_query_absorbs_source_failure "q" ["github", "slack"] 10
      (fun s => if s = "github" then some [] else none) [] 0).1 "slack"

/-- C5: for every entry (given by its tags and content tokens) and every set
of query terms, the Scorer's relevance score equals
`clamp(w1*lexical + w2*recency + w3*source, 0, 1)` with the default weights
`(0.5, 0.2, 0.3)`, and consequently every relevance score lies in `[0,1]`. -/
theorem relevance_score_clamped (queryTerms tags contentTokens : List String)
    (recency sourcePriority : ℚ) :
    score defaultWeights queryTerms tags contentTokens recency sourcePriority
      = clamp (1/2 * lexicalOverlap queryTerms tags contentTokens
          + 1/5 * recency + 3/10 * sourcePriority) 0 1 ∧
    0 ≤ score defaultWeights queryTerms tags contentTokens recency sourcePriority ∧
    score defaultWeights queryTerms tags contentTokens recency sourcePriority ≤ 1 :=
  ⟨rfl, le_max_left 0 _, max_le zero_le_one (min_le_left 1 _)⟩

/-- C6: for every input set of clusters and every positive limit, `select`
returns the cluster representatives in the order given by representative
relevance descending, then cluster size descending, then representative
timestamp descending, truncated to at most `limit` entries; the default limit
is 10, and with a positive limit a non-empty cluster set yields a non-empty
selection. -/
theorem select_orders_and_truncates (clusters : List Cluster) (limit : Nat)
    (h : 0 < limit) :
    (select clusters limit).length ≤ limit ∧
    defaultLimit = 10 ∧
    (∃ sorted : List Cluster, sorted.Perm clusters ∧
      List.Sorted clusterBefore sorted ∧
      select clusters limit = (sorted.map Cluster.representative).take limit) ∧
    (clusters ≠ [] → select clusters limit ≠ []) := by
  refine ⟨?_, rfl,
    ⟨List.insertionSort clusterBefore clusters,
      List.perm_insertionSort clusterBefore clusters,
      List.sorted_insertionSort clusterBefore clusters, rfl⟩, ?_⟩
  · simp only [select, List.length_take]
    omega
  · intro hne
    have hlen : 0 < clusters.length := List.length_pos.mpr hne
    have hsel : 0 < (select clusters limit).length := by
      simp only [select, List.length_take, List.length_map,
        (List.perm_insertionSort clusterBefore clusters).length_eq]
      omega
    exact List.ne_nil_of_length_pos hsel

theorem select_orders_and_truncates_witness :
    0 < 1 ∧
    (select [{ representative := { id := 1, relevance := 0, timestamp := 0 },
               members := [1] },
             { representative := { id := 2, relevance := 1, timestamp := 0 },
               members := [2] }] 1).length ≤ 1 :=
  ⟨by decide,
    (select_orders_and_truncates
      [{ representative := { id := 1, relevance := 0, timestamp := 0 },
         members := [1] },
       { representative := { id := 2, relevance := 1, timestamp := 0 },
         members := [2] }] 1 (by decide)).1⟩

/-- C7: the Correlator's clusters partition the deduplicated entry set — the
union of the cluster member-id sets has exactly the members of the
deduplicated set, and no entry id belongs to two distinct clusters. -/
theorem clusters_partition_dedup (ids : List Nat) (edges : List CorrEdge) :
    (∀ x, (∃ c ∈ clustersOf ids edges, x ∈ c) ↔ x ∈ ids) ∧
    (∀ c₁ ∈ clustersOf ids edges, ∀ c₂ ∈ clustersOf ids edges, c₁ ≠ c₂ →
      ∀ x, x ∈ c₁ → x ∉ c₂) := by
  constructor
  · intro x
    constructor
    · rintro ⟨c, hc, hx⟩
      simp only [clustersOf, List.mem_map] at hc
      obtain ⟨v, hv, rfl⟩ := hc
      exact (List.mem_filter.mp hx).1
    · intro hx
      refine ⟨ids.filter (fun y => entryRoot edges y == entryRoot edges x), ?_, ?_⟩
      · simp only [clustersOf, List.mem_map]
        exact ⟨entryRoot edges x,
          List.mem_dedup.mpr (List.mem_map_of_mem (entryRoot edges) hx), rfl⟩
      · exact List.mem_filter.mpr ⟨hx, by simp⟩
  · intro c₁ h₁ c₂ h₂ hne x hx₁ hx₂
    simp only [clustersOf, List.mem_map] at h₁ h₂
    obtain ⟨v₁, hv₁, rfl⟩ := h₁
    obtain ⟨v₂, hv₂, rfl⟩ := h₂
    have e₁ : entryRoot edges x = v₁ := by
      have hb := (List.mem_filter.mp hx₁).2
      simpa using hb
    have e₂ : entryRoot edges x = v₂ := by
      have hb := (List.mem_filter.mp hx₂).2
      simpa using hb
    exact hne (by rw [← e₁, ← e₂])

theorem clusters_partition_dedup_witness :
    (∃ c ∈ clustersOf [1, 2, 3]
        [{ src := 1, dst := 2, strength := 1 }, { src := 2, dst := 9, strength := 1 }],
      (2 : Nat) ∈ c) ↔ (2 : Nat) ∈ [1, 2, 3] :=
  (clusters_partition_dedup [1, 2, 3]
    [{ src := 1, dst := 2, strength := 1 }, { src := 2, dst := 9, strength := 1 }]).1 2

/-- C1: for every invocation of `handleQuery` whose query text is empty or
whitespace-only, the query is rejected before any fetch is attempted — the
handler issues no backend request for such input, whatever the backend would
have answered. -/
theorem blank_query_issues_no_request (s : DashboardState) (o : BackendOutcome)
    (h : isBlank s.query = true) :
    (handleQuery s o).requests = [] := by
  simp [handleQuery, h]

theorem blank_query_issues_no_request_witness :
    isBlank "   " = true ∧
    (handleQuery
        { query := "   ", isQuerying := false, focusedInput := false,
          activeTools := [], apiResponse := none, error := none }
        (.thrown "network down")).requests = [] :=
  ⟨by decide,
    blank_query_issues_no_request
      { query := "   ", isQuerying := false, focusedInput := false,
        activeTools := [], apiResponse := none, error := none }
      (.thrown "network down") (by decide)⟩

/-- C2, counterexample: the response shape the frontend declares and consumes,
`QueryApiResponse`, has no `clusters` field at all, so a successful query
result does not include a clusters sequence (its fields are `query_id`,
`query`, `answer`, `sources_used`, `context_matches`, `confidence_score`,
`execution_time`, `timestamp`). -/
theorem query_api_response_lacks_clusters :
    ¬ ("clusters" ∈ queryApiResponseFields) := by
  decide

/-- C2, amended: every query result contains `query`, the ranked deduplicated
entries under the name `context_matches`, `sources_used`, `confidence_score`
and `execution_time` (plus `query_id`, `answer` and `timestamp`), but neither
a `clusters` nor a `ranked_entries` field — no clusters sequence is returned
to the caller. -/
theorem query_api_response_field_inventory :
    "query" ∈ queryApiResponseFields ∧ "answer" ∈ queryApiResponseFields ∧
    "sources_used" ∈ queryApiResponseFields ∧
    "context_matches" ∈ queryApiResponseFields ∧
    "confidence_score" ∈ queryApiResponseFields ∧
    "execution_time" ∈ queryApiResponseFields ∧
    "query_id" ∈ queryApiResponseFields ∧ "timestamp" ∈ queryApiResponseFields ∧
    "clusters" ∉ queryApiResponseFields ∧
    "ranked_entries" ∉ queryApiResponseFields := by
  decide

/-- C8: whenever the backend request fails — a non-ok HTTP status or a thrown
fetch error — `handleQuery` terminates with `apiResponse = null`, `error` set
to a non-null (and non-empty) message string, and `activeTools = []`. -/
theorem failed_request_clears_state (s : DashboardState) (o : BackendOutcome)
    (hq : isBlank s.query = false) (ho : isOkOutcome o = false) :
    ∃ m, (handleQuery s o).state.error = some m ∧ m ≠ "" ∧
      (handleQuery s o).state.apiResponse = none ∧
      (handleQuery s o).state.activeTools = [] := by
  cases o with
  | ok d => simp [isOkOutcome] at ho
  | httpError status jsonBody textBody =>
      refine ⟨if httpErrorMessage status jsonBody textBody = ""
          then "Failed to fetch response from DevMind."
          else httpErrorMessage status jsonBody textBody, ?_, ?_, ?_, ?_⟩
      · simp [handleQuery, hq, thrownMessage]
      · split
        · decide
        · next hne => exact hne
      · simp [handleQuery, hq]
      · simp [handleQuery, hq]
  | thrown message =>
      refine ⟨if message = "" then "Failed to fetch response from DevMind."
          else message, ?_, ?_, ?_, ?_⟩
      · simp [handleQuery, hq, thrownMessage]
      · split
        · decide
        · next hne => exact hne
      · simp [handleQuery, hq]
      · simp [handleQuery, hq]

theorem failed_request_clears_state_witness :
    isBlank "why redis" = false ∧ isOkOutcome (.httpError 500 none "") = false ∧
    ∃ m, (handleQuery
        { query := "why redis", isQuerying := false, focusedInput := false,
          activeTools := ["github"], apiResponse := none, error := none }
        (.httpError 500 none "")).state.error = some m ∧ m ≠ "" ∧
      (handleQuery
        { query := "why redis", isQuerying := false, focusedInput := false,
          activeTools := ["github"], apiResponse := none, error := none }
        (.httpError 500 none "")).state.apiResponse = none ∧
      (handleQuery
        { query := "why redis", isQuerying := false, focusedInput := false,
          activeTools := ["github"], apiResponse := none, error := none }
        (.httpError 500 none "")).state.activeTools = [] :=
  ⟨by decide, rfl,
    failed_request_clears_state
      { query := "why redis", isQuerying := false, focusedInput := false,
        activeTools := ["github"], apiResponse := none, error := none }
      (.httpError 500 none "") (by decide) rfl⟩

/-- C9: a successful (ok) backend response sets `activeTools` to exactly the
`sources_used` array of that response, or to `[]` when the response carries no
`sources_used` field; hence every displayed tool indicator was reported by the
backend as used. -/
theorem success_sets_active_tools (s : DashboardState) (d : QueryApiResponse)
    (hq : isBlank s.query = false) :
    (handleQuery s (.ok d)).state.activeTools = d.sources_used.getD [] ∧
    ∀ t ∈ (handleQuery s (.ok d)).state.activeTools,
      ∃ l, d.sources_used = some l ∧ t ∈ l := by
  constructor
  · simp [handleQuery, hq]
  · intro t ht
    simp only [handleQuery, hq, Bool.false_eq_true, if_false] at ht
    cases hsrc : d.sources_used with
    | none => rw [hsrc] at ht; simp at ht
    | some l => rw [hsrc] at ht; exact ⟨l, rfl, by simpa using ht⟩

theorem success_sets_active_tools_witness :
    isBlank "why redis" = false ∧
    ((handleQuery
        { query := "why redis", isQuerying := false, focusedInput := false,
          activeTools := [], apiResponse := none, error := none }
        (.ok { query_id := "1", query := "why redis", answer := "because",
               sources_used := some ["github", "slack"], context_matches := [],
               confidence_score := 1, execution_time := 1,
               timestamp := "t" })).state.activeTools
        = (some ["github", "slack"] : Option (List String)).getD [] ∧
      ∀ t ∈ (handleQuery
        { query := "why redis", isQuerying := false, focusedInput := false,
          activeTools := [], apiResponse := none, error := none }
        (.ok { query_id := "1", query := "why redis", answer := "because",
               sources_used := some ["github", "slack"], context_matches := [],
               confidence_score := 1, execution_time := 1,
               timestamp := "t" })).state.activeTools,
        ∃ l, (some ["github", "slack"] : Option (List String)) = some l ∧ t ∈ l) :=
  ⟨by decide,
    success_sets_active_tools
      { query := "why redis", isQuerying := false, focusedInput := false,
        activeTools := [], apiResponse := none, error := none }
      { query_id := "1", query := "why redis", answer := "because",
        sources_used := some ["github", "slack"], context_matches := [],
        confidence_score := 1, execution_time := 1, timestamp := "t" }
      (by decide)⟩

/-- C10: with a blank (empty after trimming) query, `handleQuery` is a silent
no-op — it issues no request and returns the component state unchanged — and
the submit button is disabled in that state, so no error is raised or
surfaced for blank input. -/
theorem blank_query_silent_noop (s : DashboardState) (o : BackendOutcome)
    (h : isBlank s.query = true) :
    (handleQuery s o).requests = [] ∧ (handleQuery s o).state = s ∧
    submitDisabled s = true := by
  refine ⟨?_, ?_, ?_⟩ <;> simp [handleQuery, submitDisabled, h]

theorem blank_query_silent_noop_witness :
    isBlank "" = true ∧
    ((handleQuery
        { query := "", isQuerying := false, focusedInput := true,
          activeTools := ["github"], apiResponse := none,
          error := some "old error" } (.thrown "boom")).requests = [] ∧
      (handleQuery
        { query := "", isQuerying := false, focusedInput := true,
          activeTools := ["github"], apiResponse := none,
          error := some "old error" } (.thrown "boom")).state
        = { query := "", isQuerying := false, focusedInput := true,
            activeTools := ["github"], apiResponse := none,
            error := some "old error" } ∧
      submitDisabled
        { query := "", isQuerying := false, focusedInput := true,
          activeTools := ["github"], apiResponse := none,
          error := some "old error" } = true) :=
  ⟨by decide,
    blank_query_silent_noop
      { query := "", isQuerying := false, focusedInput := true,
        activeTools := ["github"], apiResponse := none,
        error := some "old error" } (.thrown "boom") (by decide)⟩

end DevMind
